import Mathlib

/-!
Verification of the document-hub backend (backend/app.py) against its
natural-language specification.

The Python code is shallowly embedded: every definition below is translated
from a concrete place in backend/app.py.  File-system state, the SQLite
table `uploaded_files`, the tracking spreadsheets and the assessment table
are modelled as explicit values that are threaded through the operations.
Strings are modelled over their ASCII fragment (every concrete value that
appears in the code and in the counterexamples is ASCII); on that fragment
the unicode NFKD-normalisation step performed by werkzeug's secure_filename
is the identity and is therefore not modelled separately.
-/

/-! ## Python string primitives used by app.py -/

/-- Python str.isspace / str.split whitespace test, restricted to ASCII
(codes 9-13, 28-31 and the space character). -/
def pyIsSpace (c : Char) : Bool :=
  c = ' ' || (9 ≤ c.toNat && c.toNat ≤ 13) || (28 ≤ c.toNat && c.toNat ≤ 31)

/-- Helper for pySplit: accumulates the current word (reversed). -/
def pySplitAux : List Char → List Char → List (List Char)
  | [], acc => if acc.isEmpty then [] else [acc.reverse]
  | c :: cs, acc =>
    if pyIsSpace c then
      if acc.isEmpty then pySplitAux cs [] else acc.reverse :: pySplitAux cs []
    else pySplitAux cs (c :: acc)

/-- Python str.split() with no argument: split on whitespace runs,
dropping empty tokens. -/
def pySplit (l : List Char) : List (List Char) :=
  pySplitAux l []

/-- Python "_".join(tokens). -/
def joinUnderscore : List (List Char) → List Char
  | [] => []
  | [t] => t
  | t :: ts => t ++ '_' :: joinUnderscore ts

/-- Character class of werkzeug's _filename_ascii_strip_re complement:
the characters KEPT by the regex substitution (A-Za-z0-9_.-). -/
def keepChar (c : Char) : Bool :=
  ('A' ≤ c && c ≤ 'Z') || ('a' ≤ c && c ≤ 'z') || ('0' ≤ c && c ≤ '9') ||
    c = '_' || c = '.' || c = '-'

/-- Test for the characters stripped by Python str.strip("._"). -/
def isDotOrUnderscore (c : Char) : Bool :=
  c = '.' || c = '_'

/-- Python l.strip(chars) on a character list for a given character test:
drop matching characters from both ends. -/
def pyStripChars (p : Char → Bool) (l : List Char) : List Char :=
  (((l.dropWhile p).reverse).dropWhile p).reverse

/-- Replacement of the path separator by a space: the
`filename.replace(sep, " ")` loop of werkzeug's secure_filename
(posix: os.sep is the slash, os.path.altsep is None). -/
def slashToSpace (l : List Char) : List Char :=
  l.map (fun c => if c = '/' then ' ' else c)

/-- Python s.replace(" ", "_") on a character list. -/
def replSpace (l : List Char) : List Char :=
  l.map (fun c => if c = ' ' then '_' else c)

/-- werkzeug.utils.secure_filename on the ASCII fragment:
replace the path separator by a space, split on whitespace and join with
underscores, delete every character outside A-Za-z0-9_.- and finally strip
leading and trailing dots and underscores.  (The NFKD/ascii-encode step is
the identity on ASCII input, and the Windows special-name check does not
apply on posix.) -/
def secureFilenameL (l : List Char) : List Char :=
  pyStripChars isDotOrUnderscore
    ((joinUnderscore (pySplit (slashToSpace l))).filter keepChar)

/-- secure_filename on String values. -/
def secureFilename (s : String) : String :=
  ⟨secureFilenameL s.data⟩

/-- Python u.replace(" ", "_") on String values. -/
def replaceSpaceUnderscore (u : String) : String :=
  ⟨replSpace u.data⟩

/-- Python s.isdigit() restricted to ASCII decimal digits. -/
def pyIsDigit (l : List Char) : Bool :=
  !l.isEmpty && l.all (fun c => '0' ≤ c && c ≤ '9')

/-- Python int(s) for an all-digit string. -/
def natOfDigits (l : List Char) : Nat :=
  l.foldl (fun n c => 10 * n + (c.toNat - 48)) 0

/-- Python s.strip() (strip whitespace from both ends). -/
def pyStrip (s : String) : String :=
  ⟨pyStripChars pyIsSpace s.data⟩

/-! ## The three PathResolver call sites (claim C9)

upload_gcg_file (app.py:3137):
  pic_name = secure_filename(subdirektorat) if subdirektorat else 'UNKNOWN_PIC'
update_checklist (app.py:4059-4060):
  old_pic_clean = secure_filename(old_pic.replace(' ', '_'))
refresh_tracking_tables (app.py:5785):
  pic_clean = secure_filename(pic_name.replace(' ', '_'))
-/

/-- Normalised organizational-unit path segment as computed by
upload_gcg_file. -/
def uploadPicSegment (u : String) : String :=
  if u ≠ "" then secureFilename u else "UNKNOWN_PIC"

/-- Normalised organizational-unit path segment as computed by
update_checklist (the Relocator). -/
def relocPicSegment (u : String) : String :=
  secureFilename (replaceSpaceUnderscore u)

/-- Normalised organizational-unit path segment as computed by
refresh_tracking_tables (the Reconciler). -/
def refreshPicSegment (u : String) : String :=
  secureFilename (replaceSpaceUnderscore u)

/-! ## Ordering machinery for the assessment sort key

Python compares the sort_key tuples (int, str, int, int) lexicographically;
string comparison is lexicographic on code points. -/

/-- Python lexicographic < on character lists (by code point). -/
def charListLt : List Char → List Char → Bool
  | _, [] => false
  | [], _ :: _ => true
  | a :: as, b :: bs =>
    decide (a.toNat < b.toNat) || (decide (a.toNat = b.toNat) && charListLt as bs)

/-- Python < on strings. -/
def strLtb (a b : String) : Bool :=
  charListLt a.data b.data

theorem charListLt_irrefl : ∀ l, charListLt l l = false
  | [] => rfl
  | a :: as => by simp [charListLt, charListLt_irrefl as]

theorem charListLt_trans : ∀ {a b c : List Char},
    charListLt a b = true → charListLt b c = true → charListLt a c = true
  | _, [], _, hab, _ => by simp [charListLt] at hab
  | _, _ :: _, [], _, hbc => by simp [charListLt] at hbc
  | [], _ :: _, _ :: _, _, _ => by simp [charListLt]
  | a :: as, b :: bs, c :: cs, hab, hbc => by
    simp only [charListLt, Bool.or_eq_true, Bool.and_eq_true, decide_eq_true_eq] at hab hbc ⊢
    rcases hab with h1 | ⟨h1, h1'⟩ <;> rcases hbc with h2 | ⟨h2, h2'⟩
    · exact Or.inl (Nat.lt_trans h1 h2)
    · exact Or.inl (h2 ▸ h1)
    · exact Or.inl (h1 ▸ h2)
    · exact Or.inr ⟨h1.trans h2, charListLt_trans h1' h2'⟩

theorem charListLt_connex : ∀ {a b : List Char},
    charListLt a b = false → charListLt b a = false → a = b
  | [], [], _, _ => rfl
  | [], _ :: _, hab, _ => by simp [charListLt] at hab
  | _ :: _, [], _, hba => by simp [charListLt] at hba
  | a :: as, b :: bs, hab, hba => by
    simp only [charListLt, Bool.or_eq_false_iff, Bool.and_eq_false_iff,
      decide_eq_false_iff_not, Nat.not_lt] at hab hba
    have hac : a.toNat = b.toNat := Nat.le_antisymm hba.1 hab.1
    have ha : a = b := Char.ext (UInt32.ext hac)
    rcases hab.2 with h | h
    · exact absurd hac h
    · rcases hba.2 with h' | h'
      · exact absurd hac.symm h'
      · exact ha ▸ congrArg (a :: ·) (charListLt_connex h h')

theorem charListLt_asymm {a b : List Char} (h : charListLt a b = true) :
    charListLt b a = false := by
  by_contra hba
  have hba' : charListLt b a = true := by
    cases hh : charListLt b a
    · exact absurd hh hba
    · rfl
  have hirr := charListLt_trans h hba'
  rw [charListLt_irrefl] at hirr
  exact Bool.false_ne_true hirr

theorem strLtb_trans {a b c : String} (h1 : strLtb a b = true) (h2 : strLtb b c = true) :
    strLtb a c = true :=
  charListLt_trans h1 h2

theorem strLtb_connex {a b : String} (h1 : strLtb a b = false) (h2 : strLtb b a = false) :
    a = b := by
  have hd : a.data = b.data := charListLt_connex h1 h2
  cases a; cases b
  exact congrArg String.mk hd

theorem strLtb_asymm {a b : String} (h : strLtb a b = true) : strLtb b a = false :=
  charListLt_asymm h

/-- Sort keys are tuples (year, section, rowTypePriority, itemNumber). -/
abbrev SKey := Nat × String × Nat × Nat

/-- Lexicographic Boolean comparison of sort keys, as Python compares the
tuples produced by sort_key (app.py:806). -/
def keyLeb : SKey → SKey → Bool
  | (a1, a2, a3, a4), (b1, b2, b3, b4) =>
    if a1 = b1 then
      if a2 = b2 then
        if a3 = b3 then decide (a4 ≤ b4)
        else decide (a3 < b3)
      else strLtb a2 b2
    else decide (a1 < b1)

theorem keyLeb_total (a b : SKey) : keyLeb a b = true ∨ keyLeb b a = true := by
  obtain ⟨a1, a2, a3, a4⟩ := a
  obtain ⟨b1, b2, b3, b4⟩ := b
  simp only [keyLeb]
  by_cases h1 : a1 = b1
  case neg =>
    rw [if_neg h1, if_neg (Ne.symm h1)]
    simp only [decide_eq_true_eq]; omega
  subst h1
  rw [if_pos rfl, if_pos rfl]
  by_cases h2 : a2 = b2
  case neg =>
    rw [if_neg h2, if_neg (Ne.symm h2)]
    cases hl : strLtb a2 b2
    · cases hr : strLtb b2 a2
      · exact absurd (strLtb_connex hl hr) h2
      · exact Or.inr rfl
    · exact Or.inl rfl
  subst h2
  rw [if_pos rfl, if_pos rfl]
  by_cases h3 : a3 = b3
  case neg =>
    rw [if_neg h3, if_neg (Ne.symm h3)]
    simp only [decide_eq_true_eq]; omega
  subst h3
  rw [if_pos rfl, if_pos rfl]
  simp only [decide_eq_true_eq]; omega

theorem keyLeb_trans {a b c : SKey} (h1 : keyLeb a b = true) (h2 : keyLeb b c = true) :
    keyLeb a c = true := by
  obtain ⟨a1, a2, a3, a4⟩ := a
  obtain ⟨b1, b2, b3, b4⟩ := b
  obtain ⟨c1, c2, c3, c4⟩ := c
  simp only [keyLeb] at h1 h2 ⊢
  by_cases e1 : a1 = b1
  · subst e1
    by_cases e2 : a1 = c1
    · subst e2
      rw [if_pos rfl] at h1 h2 ⊢
      by_cases f1 : a2 = b2
      · subst f1
        rw [if_pos rfl] at h1
        by_cases f2 : a2 = c2
        · subst f2
          rw [if_pos rfl] at h2 ⊢
          by_cases g1 : a3 = b3
          · subst g1
            rw [if_pos rfl] at h1
            by_cases g2 : a3 = c3
            · subst g2
              rw [if_pos rfl] at h2 ⊢
              simp only [decide_eq_true_eq] at h1 h2 ⊢
              omega
            · rw [if_neg g2] at h2 ⊢
              exact h2
          · by_cases g2 : b3 = c3
            · subst g2
              rw [if_neg g1] at h1 ⊢
              exact h1
            · rw [if_neg g1] at h1
              rw [if_neg g2] at h2
              simp only [decide_eq_true_eq] at h1 h2
              by_cases g3 : a3 = c3
              · omega
              · rw [if_neg g3]
                simp only [decide_eq_true_eq]; omega
        · rw [if_neg f2] at h2 ⊢
          exact h2
      · by_cases f2 : b2 = c2
        · subst f2
          rw [if_neg f1] at h1 ⊢
          exact h1
        · rw [if_neg f1] at h1
          rw [if_neg f2] at h2
          by_cases f3 : a2 = c2
          · subst f3
            rw [strLtb_asymm h1] at h2
            exact absurd h2 Bool.false_ne_true
          · rw [if_neg f3]
            exact strLtb_trans h1 h2
    · rw [if_neg e2] at h2 ⊢
      exact h2
  · by_cases e2 : b1 = c1
    · subst e2
      rw [if_neg e1] at h1 ⊢
      exact h1
    · rw [if_neg e1] at h1
      rw [if_neg e2] at h2
      simp only [decide_eq_true_eq] at h1 h2
      by_cases e3 : a1 = c1
      · omega
      · rw [if_neg e3]
        simp only [decide_eq_true_eq]; omega

/-! ## SnapshotWriter: the /api/save handler save_assessment (app.py:600-815)

One persisted XLSX row of web-output/output.xlsx.  Year values are
modelled as Nat (the handler receives the year as a JSON number and the
sort key coerces it with int()); every other column is carried as the
string/value written into the sheet.  Numeric cells that the code only
passes through are carried as strings via toString. -/

structure XRow where
  level : String
  type : String
  sect : String
  no : String
  deskripsi : String
  bobot : String
  skor : String
  capaian : String
  penjelasan : String
  tahun : Nat
  penilai : String
  jenis : String
  exportDate : String
deriving DecidableEq, Repr

/-- One entry of the request's main `data` list (frontend row format). -/
structure InRow where
  id : String
  aspek : String
  isTotal : Bool
  deskripsi : String
  bobot : String
  skor : String
  capaian : String
  penjelasan : String
deriving DecidableEq, Repr

/-- One entry of the request's `aspectSummaryData` list. -/
structure SummaryRow where
  aspek : String
  deskripsi : String
  bobot : Int
  skor : Int
  capaian : String
  penjelasan : String
deriving DecidableEq, Repr

/-- The request's separate `totalData` object. -/
structure TotalData where
  bobot : Int
  skor : Int
  capaian : Int
  penjelasan : String
deriving DecidableEq, Repr

/-- A /api/save request body (after JSON parsing). -/
structure SaveReq where
  year : Nat
  auditor : String
  jenis : String
  data : List InRow
  aspectSummaryData : List SummaryRow
  totalData : Option TotalData
  exportDate : String
deriving Repr

/-- Mapping of one main data row to its XLSX row (app.py:648-679):
isTotal rows become type "total", all-digit ids "indicator", the rest
"header". -/
def mainRow (req : SaveReq) (row : InRow) : XRow :=
  if row.isTotal then
    ⟨"1", "total", row.aspek, row.id, row.deskripsi, row.bobot, row.skor,
      row.capaian, row.penjelasan, req.year, req.auditor, req.jenis, req.exportDate⟩
  else if pyIsDigit row.id.data then
    ⟨"2", "indicator", row.aspek, row.id, row.deskripsi, row.bobot, row.skor,
      row.capaian, row.penjelasan, req.year, req.auditor, req.jenis, req.exportDate⟩
  else
    ⟨"1", "header", row.aspek, row.id, row.deskripsi, row.bobot, row.skor,
      row.capaian, row.penjelasan, req.year, req.auditor, req.jenis, req.exportDate⟩

/-- Mapping of one aspect summary row to its header and subtotal XLSX rows
(app.py:682-735), including both skip conditions. -/
def summaryRows (req : SaveReq) (s : SummaryRow) : List XRow :=
  if s.aspek = "" || s.deskripsi = "" || (s.bobot = 0 && s.skor = 0) then []
  else if (s.aspek = "I" || s.aspek = "II" || s.aspek = "III" || s.aspek = "IV" ||
      s.aspek = "V" || s.aspek = "VI") && pyStrip s.deskripsi = "" then []
  else
    [⟨"1", "header", s.aspek, "", s.deskripsi, "", "", "", "",
        req.year, req.auditor, req.jenis, req.exportDate⟩,
      ⟨"1", "subtotal", s.aspek, "", "JUMLAH " ++ s.aspek, toString s.bobot,
        toString s.skor, s.capaian, s.penjelasan,
        req.year, req.auditor, req.jenis, req.exportDate⟩]

/-- Mapping of the separate totalData object to its XLSX row
(app.py:738-768): skipped when absent or when all of bobot, skor, capaian
are zero and penjelasan strips to empty. -/
def totalRows (req : SaveReq) : List XRow :=
  match req.totalData with
  | none => []
  | some t =>
    if t.bobot ≠ 0 || t.skor ≠ 0 || t.capaian ≠ 0 || pyStrip t.penjelasan ≠ "" then
      [⟨"4", "total", "TOTAL", "", "TOTAL", toString t.bobot, toString t.skor,
          toString t.capaian, t.penjelasan, req.year, req.auditor, req.jenis,
          req.exportDate⟩]
    else []

/-- All XLSX rows derived from one save request, in emission order. -/
def newRowsOf (req : SaveReq) : List XRow :=
  req.data.map (mainRow req) ++ (req.aspectSummaryData.map (summaryRows req)).flatten
    ++ totalRows req

/-- The pandas drop_duplicates subset (app.py:775): the composite key used
for deduplication is (Tahun, Section, No, Deskripsi). -/
def dkey (r : XRow) : Nat × String × String × String :=
  (r.tahun, r.sect, r.no, r.deskripsi)

/-- pandas drop_duplicates(subset, keep="last"): a row survives iff no
later row has the same key; surviving rows keep their relative order. -/
def dedupKeepLast {α : Type} {K : Type} [DecidableEq K] (key : α → K) :
    List α → List α
  | [] => []
  | x :: xs =>
    if xs.any (fun y => key y = key x) then dedupKeepLast key xs
    else x :: dedupKeepLast key xs

/-- The sort_key function of app.py:779-806: (year, section, typePriority,
numeric item number), where total rows replace their section by the
sentinel "ZZZZZ", unknown types have priority 1, and non-digit item
numbers map to 9999. -/
def sortKey (r : XRow) : SKey :=
  (r.tahun,
    (if r.type = "total" then "ZZZZZ" else r.sect),
    (if r.type = "header" then 0 else if r.type = "indicator" then 1
      else if r.type = "subtotal" then 2 else if r.type = "total" then 3 else 1),
    (if pyIsDigit r.no.data then natOfDigits r.no.data else 9999))

/-- Row comparison by sort key. -/
def rowLe (a b : XRow) : Prop :=
  keyLeb (sortKey a) (sortKey b) = true

instance : DecidableRel rowLe :=
  fun a b => inferInstanceAs (Decidable (keyLeb (sortKey a) (sortKey b) = true))

instance : IsTotal XRow rowLe :=
  ⟨fun a b => keyLeb_total (sortKey a) (sortKey b)⟩

instance : IsTrans XRow rowLe :=
  ⟨fun _ _ _ h1 h2 => keyLeb_trans h1 h2⟩

/-- The pandas sort_values on the sort_key column (app.py:808), modelled
as a stable sort by the key ordering. -/
def sortRows (l : List XRow) : List XRow :=
  l.insertionSort rowLe

/-- The merged row list built by save_assessment before dedup and sort:
rows of other years kept from the existing sheet (removal of the target
year is skipped when the year is falsy, i.e. 0), followed by the rows
derived from the request. -/
def allRowsOf (table : List XRow) (req : SaveReq) : List XRow :=
  (if req.year ≠ 0 then table.filter (fun r => r.tahun ≠ req.year) else table)
    ++ newRowsOf req

/-- The /api/save handler save_assessment: full-replace of the year
partition, dedup on (Tahun, Section, No, Deskripsi) keeping the last
occurrence, sort by sort_key (app.py:614-815).  When the merged row list
is empty the code skips the write entirely (`if all_rows:`) and the
previously persisted table stays as it was. -/
def saveAssessment (table : List XRow) (req : SaveReq) : List XRow :=
  if (allRowsOf table req).isEmpty then table
  else sortRows (dedupKeepLast dkey (allRowsOf table req))

/-! ## Properties of dedupKeepLast and sortRows -/

theorem mem_of_mem_dedupKeepLast {α K : Type} [DecidableEq K] (key : α → K) :
    ∀ {l : List α} {x : α}, x ∈ dedupKeepLast key l → x ∈ l
  | [], _, h => by simp [dedupKeepLast] at h
  | a :: as, x, h => by
    simp only [dedupKeepLast] at h
    by_cases hdup : as.any (fun y => decide (key y = key a)) = true
    · rw [if_pos hdup] at h
      exact List.mem_cons_of_mem a (mem_of_mem_dedupKeepLast key h)
    · rw [if_neg hdup] at h
      rcases List.mem_cons.mp h with h | h
      · exact h ▸ List.mem_cons_self a as
      · exact List.mem_cons_of_mem a (mem_of_mem_dedupKeepLast key h)

theorem dedupKeepLast_pairwise {α K : Type} [DecidableEq K] (key : α → K) :
    ∀ l : List α, List.Pairwise (fun a b => key a ≠ key b) (dedupKeepLast key l)
  | [] => List.Pairwise.nil
  | a :: as => by
    simp only [dedupKeepLast]
    by_cases hdup : as.any (fun y => decide (key y = key a)) = true
    · rw [if_pos hdup]
      exact dedupKeepLast_pairwise key as
    · rw [if_neg hdup]
      refine List.Pairwise.cons (fun y hy hk => ?_) (dedupKeepLast_pairwise key as)
      have hy' : y ∈ as := mem_of_mem_dedupKeepLast key hy
      exact hdup (List.any_eq_true.mpr ⟨y, hy', by simp [hk]⟩)

theorem getLast?_cons_of_ne_nil {α : Type} (a : α) {l : List α} (h : l ≠ []) :
    (a :: l).getLast? = l.getLast? := by
  cases l with
  | nil => exact absurd rfl h
  | cons b bs => exact List.getLast?_cons_cons ..

theorem dedupKeepLast_filter {α K : Type} [DecidableEq K] (key : α → K) (k : K) :
    ∀ l : List α,
      (dedupKeepLast key l).filter (fun y => decide (key y = k)) =
        ((l.filter (fun y => decide (key y = k))).getLast?).toList
  | [] => rfl
  | a :: as => by
    have ih := dedupKeepLast_filter key k as
    simp only [dedupKeepLast]
    by_cases hdup : as.any (fun y => decide (key y = key a)) = true
    · rw [if_pos hdup]
      by_cases hk : key a = k
      · have hne : as.filter (fun y => decide (key y = k)) ≠ [] := by
          rcases List.any_eq_true.mp hdup with ⟨y, hy, hky⟩
          intro hnil
          have := (List.filter_eq_nil_iff.mp hnil) y hy
          simp only [decide_eq_true_eq] at this hky
          exact this (hky.trans hk)
        rw [ih, List.filter_cons, if_pos (by simp [hk]),
          getLast?_cons_of_ne_nil _ hne]
      · rw [ih, List.filter_cons, if_neg (by simp [hk])]
    · rw [if_neg hdup, List.filter_cons, List.filter_cons]
      by_cases hk : key a = k
      · have hnil : as.filter (fun y => decide (key y = k)) = [] := by
          refine List.filter_eq_nil_iff.mpr (fun y hy hky => ?_)
          simp only [decide_eq_true_eq] at hky
          exact hdup (List.any_eq_true.mpr ⟨y, hy, by simp [hky.trans hk.symm]⟩)
        have hnil' : (dedupKeepLast key as).filter (fun y => decide (key y = k)) = [] := by
          rw [ih, hnil]; rfl
        rw [if_pos (by simp [hk]), if_pos (by simp [hk]), hnil, hnil']
        rfl
      · rw [if_neg (by simp [hk]), if_neg (by simp [hk])]
        exact ih

theorem mem_dedupKeepLast_key_iff {α K : Type} [DecidableEq K] (key : α → K)
    (l : List α) (k : K) (x : α) :
    (x ∈ dedupKeepLast key l ∧ key x = k) ↔
      (l.filter (fun y => decide (key y = k))).getLast? = some x := by
  have hf := dedupKeepLast_filter key k l
  constructor
  · rintro ⟨hmem, hk⟩
    have hx : x ∈ (dedupKeepLast key l).filter (fun y => decide (key y = k)) :=
      List.mem_filter.mpr ⟨hmem, by simp [hk]⟩
    rw [hf] at hx
    cases ho : (l.filter (fun y => decide (key y = k))).getLast? with
    | none => rw [ho] at hx; simp [Option.toList] at hx
    | some z => rw [ho] at hx; simp only [Option.toList, List.mem_singleton] at hx
                exact congrArg some hx.symm
  · intro hlast
    have hx : x ∈ ((l.filter (fun y => decide (key y = k))).getLast?).toList := by
      rw [hlast]; exact List.mem_singleton.mpr rfl
    rw [← hf] at hx
    have hx' := List.mem_filter.mp hx
    exact ⟨hx'.1, by simpa using hx'.2⟩

theorem mem_sortRows {l : List XRow} {x : XRow} : x ∈ sortRows l ↔ x ∈ l :=
  (List.perm_insertionSort rowLe l).mem_iff

theorem sortRows_sorted (l : List XRow) : List.Sorted rowLe (sortRows l) :=
  List.sorted_insertionSort rowLe l

/-! ## Claims C1, C2, C3 about save_assessment -/

/-- First save request of the C1 scenario: one indicator row for 2024. -/
def reqA : SaveReq :=
  ⟨2024, "aud", "Internal", [⟨"1", "I", false, "d", "", "", "", ""⟩], [], none,
    "2025-01-01"⟩

/-- Second save request of the C1 scenario: the complete desired state for
2024 is empty (the caller deleted every row). -/
def reqB : SaveReq :=
  ⟨2024, "aud", "Internal", [], [], none, "2025-01-01"⟩

/-- C1: saveAssessmentPartition(year, rowsA) followed by
saveAssessmentPartition(year, rowsB) must leave exactly the rows derived
from rowsB for that year.  The code violates this when rowsB derives no
rows and no other year is present: the merged list is empty, the
`if all_rows:` guard skips the write, and the rows derived from rowsA
remain persisted.  This theorem evaluates the embedded handler at that
failing input: the second request derives zero rows, yet after both saves
a year-2024 row (the one derived from rowsA) is still persisted. -/
theorem save_empty_partition_not_replaced :
    newRowsOf reqB = [] ∧
      (saveAssessment (saveAssessment [] reqA) reqB).map (fun r => r.tahun) = [2024] ∧
      saveAssessment (saveAssessment [] reqA) reqB = saveAssessment [] reqA := by
  refine ⟨rfl, ?_, ?_⟩ <;> decide

/-- Save request whose two main rows agree on (year, section, itemNumber,
rowType) but differ in description. -/
def reqC2 : SaveReq :=
  ⟨2024, "aud", "Internal",
    [⟨"A", "I", false, "x", "", "", "", ""⟩, ⟨"A", "I", false, "y", "", "", "", ""⟩],
    [], none, "2025-01-01"⟩

/-- C2 counterexample: the persisted table after a save is NOT unique by
the composite key (year, section, itemNumber, rowType): two rows that
differ only in description both survive, because the code deduplicates on
(Tahun, Section, No, Deskripsi) instead. -/
theorem save_not_unique_by_claimed_key :
    ¬ List.Pairwise
        (fun a b => (a.tahun, a.sect, a.no, a.type) ≠ (b.tahun, b.sect, b.no, b.type))
        (saveAssessment [] reqC2) := by
  decide

/-- C2 amended: after a save that actually writes (the merged row list is
non-empty), the persisted rows are unique by the dedup key
(Tahun, Section, No, Deskripsi), and for every such key the surviving row
is exactly the last occurrence of that key in the merged row list. -/
theorem save_unique_by_dedup_key (table : List XRow) (req : SaveReq)
    (h : allRowsOf table req ≠ []) :
    List.Pairwise (fun a b => dkey a ≠ dkey b) (saveAssessment table req) ∧
      ∀ (k : Nat × String × String × String) (x : XRow),
        (x ∈ saveAssessment table req ∧ dkey x = k) ↔
          ((allRowsOf table req).filter (fun y => decide (dkey y = k))).getLast? =
            some x := by
  have hne : ¬ (allRowsOf table req).isEmpty = true := fun hh => h (List.isEmpty_iff.mp hh)
  rw [saveAssessment, if_neg hne]
  constructor
  · exact ((List.perm_insertionSort rowLe _).pairwise_iff
      (fun hab => fun e => hab e.symm)).mpr (dedupKeepLast_pairwise dkey _)
  · intro k x
    rw [show (x ∈ sortRows (dedupKeepLast dkey (allRowsOf table req)) ∧ dkey x = k) ↔
        (x ∈ dedupKeepLast dkey (allRowsOf table req) ∧ dkey x = k) from
      and_congr_left (fun _ => mem_sortRows)]
    exact mem_dedupKeepLast_key_iff dkey (allRowsOf table req) k x

/-- Row derived from the second main row of reqC2 (the last occurrence of
its dedup key in the merged list). -/
def rowC2 : XRow :=
  ⟨"1", "header", "I", "A", "y", "", "", "", "", 2024, "aud", "Internal", "2025-01-01"⟩

/-- Witness for save_unique_by_dedup_key at a concrete input: the row kept
for key (2024, "I", "A", "y") is the second header row of reqC2. -/
theorem save_unique_by_dedup_key_witness :
    rowC2 ∈ saveAssessment [] reqC2 ∧ dkey rowC2 = (2024, "I", "A", "y") :=
  ((save_unique_by_dedup_key [] reqC2 (by decide)).2 (2024, "I", "A", "y") rowC2).mpr
    (by decide)

/-- Save request of the C3 counterexample: one indicator row whose section
"zz" compares above the sentinel "ZZZZZ", plus a meaningful totalData. -/
def reqC3 : SaveReq :=
  ⟨2024, "aud", "Internal", [⟨"1", "zz", false, "d", "", "", "", ""⟩], [],
    some ⟨1, 0, 0, ""⟩, "2025-01-01"⟩

/-- C3 counterexample: the claim says each year's total rows sort after
every header/indicator/subtotal row of every section of that year, the
sentinel being maximal among all section values.  The sentinel is the
literal "ZZZZZ", and a section named "zz" sorts above it: the persisted
order puts the year-2024 total row BEFORE the year-2024 indicator row. -/
theorem save_total_not_last :
    (saveAssessment [] reqC3).map (fun r => r.type) = ["total", "indicator"] ∧
      (saveAssessment [] reqC3).map (fun r => r.tahun) = [2024, 2024] := by
  constructor <;> decide

/-- C3 amended: after a save that actually writes, the persisted order is
ascending in the code's sort key: (year, section, rowTypePriority, numeric
itemNumber) compared lexicographically, where total rows substitute the
fixed sentinel string "ZZZZZ" for their section (so they sort after
sections that compare below "ZZZZZ", such as the Roman-numeral sections,
but not after arbitrary section values) and non-digit item numbers map
to 9999. -/
theorem save_sorted_by_key (table : List XRow) (req : SaveReq)
    (h : allRowsOf table req ≠ []) :
    List.Sorted rowLe (saveAssessment table req) := by
  have hne : ¬ (allRowsOf table req).isEmpty = true := fun hh => h (List.isEmpty_iff.mp hh)
  rw [saveAssessment, if_neg hne]
  exact sortRows_sorted _

/-- Witness for save_sorted_by_key at a concrete input. -/
theorem save_sorted_by_key_witness :
    List.Sorted rowLe (saveAssessment [] reqC3) :=
  save_sorted_by_key [] reqC3 (by decide)

/-! ## File-system model

Physical storage is a list of nodes, each a full path (list of segments
under the data root) marked as file or directory.  Directories are present
as explicit nodes. -/

structure FsNode where
  path : List String
  isFile : Bool
deriving DecidableEq, Repr

/-- File-system state. -/
abbrev Fs := List FsNode

/-- pathlib Path.exists(): some node has exactly this path. -/
def fsExists (fs : Fs) (p : List String) : Bool :=
  fs.any (fun n => n.path = p)

/-- Path.is_dir(): a directory node has exactly this path. -/
def fsIsDir (fs : Fs) (p : List String) : Bool :=
  fs.any (fun n => decide (n.path = p) && !n.isFile)

/-- Path.mkdir(parents=True, exist_ok=True): add a directory node for
every missing ancestor of p, and for p itself. -/
def mkdirParents (fs : Fs) (p : List String) : Fs :=
  ((List.range p.length).map (fun i => p.take (i + 1))).foldl
    (fun acc q => if fsExists acc q then acc else acc ++ [⟨q, false⟩]) fs

/-- os.rename of a directory subtree: every node whose path lies under src
gets src replaced by dst. -/
def renameTree (fs : Fs) (src dst : List String) : Fs :=
  fs.map (fun n =>
    if src.isPrefixOf n.path then ⟨dst ++ n.path.drop src.length, n.isFile⟩ else n)

/-- shutil.move(src, dst): when dst is an existing directory the source is
moved INSIDE it as dst/basename(src), failing only if that nested path
already exists; otherwise src is renamed to dst. -/
def shutilMove (fs : Fs) (src dst : List String) : Except String Fs :=
  if fsIsDir fs dst then
    let realDst := dst ++ [src.getLastD ""]
    if fsExists fs realDst then
      Except.error "Destination path already exists"
    else Except.ok (renameTree fs src realDst)
  else Except.ok (renameTree fs src dst)

/-- Files directly inside a directory: paths of the file nodes one level
below p (what Path.glob('*') enumerates and is_file() keeps). -/
def filesInDir (fs : Fs) (p : List String) : List (List String) :=
  (fs.filter (fun n =>
    n.isFile && decide (n.path.length = p.length + 1) && p.isPrefixOf n.path)).map
    (fun n => n.path)

/-! ## MetadataStore and MirrorStore rows for uploaded documents -/

/-- One row of the authoritative SQLite table uploaded_files (the columns
the claims depend on). -/
structure DbFileRec where
  id : String
  file_name : String
  file_size : Nat
  year : Nat
  checklist_id : Nat
  file_path : String
deriving DecidableEq, Repr

/-- One row of the uploaded-files.xlsx mirror (the columns the claims
depend on). -/
structure FileRec where
  id : String
  year : Nat
  checklistId : Nat
  localFilePath : String
  subdirektorat : String
deriving DecidableEq, Repr

/-- Store state touched by upload_gcg_file: physical tree, authoritative
SQLite table, xlsx mirror. -/
structure UploadState where
  fs : Fs
  db : List DbFileRec
  xlsx : List FileRec
deriving Repr

/-- An upload request, after the handler's field validation and int()
parsing succeeded (file present, non-empty filename, valid year and
checklist id). -/
structure UploadReq where
  filename : String
  year : Nat
  checklistId : Nat
  subdirektorat : String
  fileSize : Nat
  fileId : String
  uploadDate : String
deriving Repr

/-- Directory that upload_gcg_file resolves for a request:
gcg-documents/{year}/{pic}/{checklist_id} (app.py:3137-3140). -/
def uploadDir (req : UploadReq) : List String :=
  ["gcg-documents", toString req.year, uploadPicSegment req.subdirektorat,
    toString req.checklistId]

/-- Path string stored in the metadata records for a request. -/
def uploadPathString (req : UploadReq) : String :=
  "gcg-documents/" ++ toString req.year ++ "/" ++ uploadPicSegment req.subdirektorat
    ++ "/" ++ toString req.checklistId ++ "/" ++ secureFilename req.filename

/-- The directory-clearing loop of app.py:3166-3183: unlink every file
node directly inside the destination directory (subdirectories and deeper
nodes are untouched). -/
def clearDir (fs : Fs) (p : List String) : Fs :=
  fs.filter (fun n =>
    !(n.isFile && decide (n.path.length = p.length + 1) && p.isPrefixOf n.path))

/-- The new authoritative record inserted by upload_gcg_file
(app.py:3246-3261). -/
def newDbRec (req : UploadReq) : DbFileRec :=
  ⟨req.fileId, req.filename, req.fileSize, req.year, req.checklistId,
    uploadPathString req⟩

/-- The new mirror record appended by upload_gcg_file (app.py:3263-3268). -/
def newXlsxRec (req : UploadReq) : FileRec :=
  ⟨req.fileId, req.year, req.checklistId, uploadPathString req, req.subdirektorat⟩

/-- The upload_gcg_file handler (app.py:3090-3270), success and
file-write-failure paths.  writeFails injects a failure of the physical
byte write (the open/f.write step); the preceding directory clearing and
mkdir have already happened when that failure strikes, and opening a path
occupied by a directory also fails.  On write failure the handler returns
HTTP 500 before any database access.  On success it deletes every
uploaded_files row for (checklist_id, year), inserts the new row, and
updates the mirror the same way. -/
def uploadGcgFile (st : UploadState) (req : UploadReq) (writeFails : Bool) :
    UploadState × Except String DbFileRec :=
  let dir := uploadDir req
  let target := dir ++ [secureFilename req.filename]
  let fs2 := mkdirParents (clearDir st.fs dir) dir
  if writeFails || fsIsDir fs2 target then
    ({ st with fs := fs2 }, Except.error "Failed to save file to local storage")
  else
    ({ fs := fs2 ++ [⟨target, true⟩],
       db := st.db.filter
           (fun r => !(decide (r.checklist_id = req.checklistId) && decide (r.year = req.year)))
         ++ [newDbRec req],
       xlsx := st.xlsx.filter
           (fun r => !(decide (r.checklistId = req.checklistId) && decide (r.year = req.year)))
         ++ [newXlsxRec req] },
      Except.ok (newDbRec req))

/-! ## Claims C6, C7, C10 about upload_gcg_file -/

theorem filter_not_filter {α : Type} (p : α → Bool) (l : List α) :
    (l.filter (fun a => !(p a))).filter p = [] := by
  refine List.filter_eq_nil_iff.mpr (fun a ha => ?_)
  have h2 := (List.mem_filter.mp ha).2
  simp only [Bool.not_eq_true'] at h2
  simp [h2]

theorem mem_mkdirParents {fs : Fs} {p : List String} {n : FsNode}
    (h : n ∈ mkdirParents fs p) : n ∈ fs ∨ n.isFile = false := by
  unfold mkdirParents at h
  generalize (List.range p.length).map (fun i => p.take (i + 1)) = qs at h
  induction qs generalizing fs with
  | nil => exact Or.inl h
  | cons q qs ih =>
    simp only [List.foldl_cons] at h
    rcases ih h with h' | h'
    · by_cases hq : fsExists fs q = true
      · rw [if_pos hq] at h'
        exact Or.inl h'
      · rw [if_neg hq] at h'
        rcases List.mem_append.mp h' with h'' | h''
        · exact Or.inl h''
        · rw [List.mem_singleton.mp h'']
          exact Or.inr rfl
    · exact Or.inr h'

/-- C6: when writing the uploaded bytes to physical storage fails, the
handler returns an error response and neither the authoritative
uploaded_files table nor the xlsx mirror is touched. -/
theorem upload_write_failure_no_insert (st : UploadState) (req : UploadReq) :
    (uploadGcgFile st req true).2 = Except.error "Failed to save file to local storage" ∧
      (uploadGcgFile st req true).1.db = st.db ∧
      (uploadGcgFile st req true).1.xlsx = st.xlsx :=
  ⟨rfl, rfl, rfl⟩

/-- C7: after a successful upload the authoritative uploaded_files table
contains exactly one record for the (year, checklistId) pair: the freshly
inserted one (every predecessor row for the pair is deleted first). -/
theorem upload_single_record_per_pair (st : UploadState) (req : UploadReq)
    (h : (uploadGcgFile st req false).2.isOk = true) :
    (uploadGcgFile st req false).1.db.filter
        (fun r => decide (r.checklist_id = req.checklistId) && decide (r.year = req.year))
      = [newDbRec req] := by
  simp only [uploadGcgFile, Bool.false_or] at h ⊢
  by_cases hb : fsIsDir (mkdirParents (clearDir st.fs (uploadDir req)) (uploadDir req))
      (uploadDir req ++ [secureFilename req.filename]) = true
  · rw [if_pos hb] at h
    exact absurd h (by simp [Except.isOk, Except.toBool])
  · rw [if_neg hb]
    rw [List.filter_append, filter_not_filter]
    simp [newDbRec]

/-- C7 witness: a concrete successful upload. -/
theorem upload_single_record_per_pair_witness :
    (uploadGcgFile ⟨[], [⟨"old", "a.pdf", 3, 2024, 5, "p"⟩], []⟩
        ⟨"b.pdf", 2024, 5, "Alpha", 7, "fid", "2025-01-01"⟩ false).1.db.filter
        (fun r => decide (r.checklist_id = 5) && decide (r.year = 2024))
      = [newDbRec ⟨"b.pdf", 2024, 5, "Alpha", 7, "fid", "2025-01-01"⟩] :=
  upload_single_record_per_pair ⟨[], [⟨"old", "a.pdf", 3, 2024, 5, "p"⟩], []⟩
    ⟨"b.pdf", 2024, 5, "Alpha", 7, "fid", "2025-01-01"⟩ (by decide)

/-- C10: a successful upload first unlinks every file that was directly
inside the destination directory (whatever its name) and then writes the
new file, so afterwards that directory contains exactly one file: the
newly uploaded one. -/
theorem upload_dir_contains_only_new_file (st : UploadState) (req : UploadReq)
    (h : (uploadGcgFile st req false).2.isOk = true) :
    filesInDir (uploadGcgFile st req false).1.fs (uploadDir req)
      = [uploadDir req ++ [secureFilename req.filename]] := by
  simp only [uploadGcgFile, Bool.false_or] at h ⊢
  by_cases hb : fsIsDir (mkdirParents (clearDir st.fs (uploadDir req)) (uploadDir req))
      (uploadDir req ++ [secureFilename req.filename]) = true
  · rw [if_pos hb] at h
    exact absurd h (by simp [Except.isOk, Except.toBool])
  · rw [if_neg hb]
    simp only [filesInDir, List.filter_append]
    have hmk : (mkdirParents (clearDir st.fs (uploadDir req)) (uploadDir req)).filter
        (fun n => n.isFile && decide (n.path.length = (uploadDir req).length + 1)
          && (uploadDir req).isPrefixOf n.path) = [] := by
      refine List.filter_eq_nil_iff.mpr (fun n hn hp => ?_)
      rcases mem_mkdirParents hn with hmem | hdir
      · have h2 := (List.mem_filter.mp hmem).2
        simp only [Bool.not_eq_true'] at h2
        rw [h2] at hp
        simp at hp
      · rw [hdir] at hp
        simp at hp
    rw [hmk]
    have hpre : (uploadDir req).isPrefixOf (uploadDir req ++ [secureFilename req.filename]) = true := by
      rw [List.isPrefixOf_iff_prefix]
      exact List.prefix_append ..
    simp [hpre]

/-- C10 witness: a concrete successful upload into a directory that
already held two files with different names; afterwards the directory
holds exactly the new file. -/
theorem upload_dir_contains_only_new_file_witness :
    filesInDir
        (uploadGcgFile
          ⟨[⟨["gcg-documents"], false⟩, ⟨["gcg-documents", "2024"], false⟩,
            ⟨["gcg-documents", "2024", "Alpha"], false⟩,
            ⟨["gcg-documents", "2024", "Alpha", "5"], false⟩,
            ⟨["gcg-documents", "2024", "Alpha", "5", "old1.pdf"], true⟩,
            ⟨["gcg-documents", "2024", "Alpha", "5", "old2.docx"], true⟩], [], []⟩
          ⟨"b.pdf", 2024, 5, "Alpha", 7, "fid", "2025-01-01"⟩ false).1.fs
        (uploadDir ⟨"b.pdf", 2024, 5, "Alpha", 7, "fid", "2025-01-01"⟩)
      = [uploadDir ⟨"b.pdf", 2024, 5, "Alpha", 7, "fid", "2025-01-01"⟩ ++ ["b.pdf"]] := by
  have h := upload_dir_contains_only_new_file
    ⟨[⟨["gcg-documents"], false⟩, ⟨["gcg-documents", "2024"], false⟩,
      ⟨["gcg-documents", "2024", "Alpha"], false⟩,
      ⟨["gcg-documents", "2024", "Alpha", "5"], false⟩,
      ⟨["gcg-documents", "2024", "Alpha", "5", "old1.pdf"], true⟩,
      ⟨["gcg-documents", "2024", "Alpha", "5", "old2.docx"], true⟩], [], []⟩
    ⟨"b.pdf", 2024, 5, "Alpha", 7, "fid", "2025-01-01"⟩ (by decide)
  rw [h]
  decide

/-! ## Relocator: the file-transfer step of update_checklist (app.py:4002-4211)

State touched by a PIC/year relocation: the physical tree, the xlsx
tracking mirror and the authoritative uploaded_files table. -/

structure RelocState where
  fs : Fs
  xlsx : List FileRec
  db : List DbFileRec
deriving DecidableEq, Repr

/-- Caller-visible part of the update_checklist JSON response that the
transfer step determines (the handler always answers HTTP 200 with
success=true once it reaches response assembly; files_transferred and
transfer_errors/warning are included when set). -/
structure RelocResponse where
  success : Bool
  filesTransferred : Bool
  transferErrors : List String
deriving DecidableEq, Repr

/-- Failure injection for the three fallible steps: the os-level rename
performed by shutil.move (step 3), the uploaded-files.xlsx tracking
update (step 5, best-effort) and the SQLite file_path update (step 4,
also wrapped in its own try/except). -/
structure RelocFailures where
  moveFails : Bool
  trackingFails : Bool
  dbFails : Bool
deriving DecidableEq, Repr

/-- Old directory gcg-documents/{old_tahun}/{old_pic_clean}/{checklist_id}
resolved by update_checklist (app.py:4061). -/
def relocOldDir (checklistId : Nat) (oldPic : String) (oldTahun : Nat) : List String :=
  ["gcg-documents", toString oldTahun, relocPicSegment oldPic, toString checklistId]

/-- New directory gcg-documents/{new_tahun}/{new_pic_clean}/{checklist_id}
resolved by update_checklist (app.py:4062). -/
def relocNewDir (checklistId : Nat) (newPic : String) (newTahun : Nat) : List String :=
  ["gcg-documents", toString newTahun, relocPicSegment newPic, toString checklistId]

/-- Old directory as the path STRING used in the stores. -/
def relocOldDirStr (checklistId : Nat) (oldPic : String) (oldTahun : Nat) : String :=
  "gcg-documents/" ++ toString oldTahun ++ "/" ++ relocPicSegment oldPic ++ "/"
    ++ toString checklistId

/-- New directory as the path STRING used in the stores. -/
def relocNewDirStr (checklistId : Nat) (newPic : String) (newTahun : Nat) : String :=
  "gcg-documents/" ++ toString newTahun ++ "/" ++ relocPicSegment newPic ++ "/"
    ++ toString checklistId

/-- The uploaded-files.xlsx tracking update of app.py:4089-4114: rows for
(checklistId, old year) get the old PIC segment replaced by the new one in
localFilePath (plus the year segment when the year changed), the
subdirektorat set to the new PIC and, when the year changed, the year
updated. -/
def relocTrackingUpdate (rows : List FileRec) (checklistId : Nat)
    (oldPic newPic : String) (oldTahun newTahun : Nat) : List FileRec :=
  rows.map (fun r =>
    if r.checklistId = checklistId ∧ r.year = oldTahun then
      { r with
        localFilePath :=
          (let p := r.localFilePath.replace
            ("/" ++ relocPicSegment oldPic ++ "/") ("/" ++ relocPicSegment newPic ++ "/")
          if oldTahun ≠ newTahun then
            p.replace ("gcg-documents/" ++ toString oldTahun ++ "/")
              ("gcg-documents/" ++ toString newTahun ++ "/")
          else p),
        subdirektorat := newPic,
        year := if oldTahun ≠ newTahun then newTahun else r.year }
    else r)

/-- The SQLite file_path update of app.py:4117-4141: REPLACE(file_path,
old_dir, new_dir) on rows matching checklist_id and (new year when the
year changed, else the old year); the preceding LIKE update appends an
empty string and is a content no-op. -/
def relocDbUpdate (rows : List DbFileRec) (checklistId : Nat)
    (oldPic newPic : String) (oldTahun newTahun : Nat) : List DbFileRec :=
  rows.map (fun r =>
    if r.checklist_id = checklistId ∧
        r.year = (if oldTahun ≠ newTahun then newTahun else oldTahun) then
      { r with
        file_path := r.file_path.replace
          (relocOldDirStr checklistId oldPic oldTahun)
          (relocNewDirStr checklistId newPic newTahun) }
    else r)

/-- The transfer step of update_checklist (app.py:4055-4160) followed by
the response assembly (app.py:4194-4207).  When the PIC changes and both
PIC names are non-empty, the handler resolves the two directories; when
the old one exists it creates the new parent directories and calls
shutil.move; on success it performs the best-effort tracking and SQLite
path updates, whose failures are only logged; a move failure is appended
to transfer_errors.  A missing old directory counts as a successful
transfer.  The handler then updates checklist_gcg/checklist_assignments
(not modelled: no claim concerns them) and always returns success=true. -/
def updateChecklistTransfer (st : RelocState) (checklistId : Nat)
    (oldPic newPic : String) (oldTahun newTahun : Nat) (inj : RelocFailures) :
    RelocState × RelocResponse :=
  if oldPic ≠ newPic ∧ oldPic ≠ "" ∧ newPic ≠ "" then
    let oldDir := relocOldDir checklistId oldPic oldTahun
    let newDir := relocNewDir checklistId newPic newTahun
    if fsExists st.fs oldDir then
      let fs1 := mkdirParents st.fs newDir.dropLast
      match (if inj.moveFails then Except.error "injected os failure"
             else shutilMove fs1 oldDir newDir : Except String Fs) with
      | Except.error msg =>
        ({ st with fs := fs1 },
          ⟨true, false, ["Failed to move local directory: " ++ msg]⟩)
      | Except.ok fs2 =>
        ({ fs := fs2,
           xlsx := if inj.trackingFails then st.xlsx
             else relocTrackingUpdate st.xlsx checklistId oldPic newPic oldTahun newTahun,
           db := if inj.dbFails then st.db
             else relocDbUpdate st.db checklistId oldPic newPic oldTahun newTahun },
          ⟨true, true, []⟩)
    else
      (st, ⟨true, true, []⟩)
  else
    (st, ⟨true, false, []⟩)

/-! ## Claims C4 and C5 about the relocation step -/

/-- Physical tree of the C4 scenario: the old directory
gcg-documents/2024/Alpha/5 holds doc.pdf and the destination
gcg-documents/2024/Beta/5 already exists and holds other.pdf. -/
def fsC4 : Fs :=
  [⟨["gcg-documents"], false⟩, ⟨["gcg-documents", "2024"], false⟩,
    ⟨["gcg-documents", "2024", "Alpha"], false⟩,
    ⟨["gcg-documents", "2024", "Alpha", "5"], false⟩,
    ⟨["gcg-documents", "2024", "Alpha", "5", "doc.pdf"], true⟩,
    ⟨["gcg-documents", "2024", "Beta"], false⟩,
    ⟨["gcg-documents", "2024", "Beta", "5"], false⟩,
    ⟨["gcg-documents", "2024", "Beta", "5", "other.pdf"], true⟩]

/-- C4: on a destination collision (the new physical directory exists and
contains a file) the relocation must fail closed: report failure and leave
the trees apart.  The code instead calls shutil.move, which relocates the
old directory INSIDE the occupied destination (as .../Beta/5/5) and
reports complete success: files_transferred is true and transfer_errors is
empty, and the moved document now lives nested inside the destination
directory. -/
theorem reloc_destination_collision_reports_success :
    (updateChecklistTransfer ⟨fsC4, [], []⟩ 5 "Alpha" "Beta" 2024 2024
        ⟨false, false, false⟩).2 = ⟨true, true, []⟩ ∧
      fsExists (updateChecklistTransfer ⟨fsC4, [], []⟩ 5 "Alpha" "Beta" 2024 2024
          ⟨false, false, false⟩).1.fs
        ["gcg-documents", "2024", "Beta", "5", "5", "doc.pdf"] = true := by
  constructor <;> decide

/-- State of the C5 counterexample: the old directory exists, the
destination does not, so the physical move succeeds cleanly. -/
def stC5 : RelocState :=
  ⟨[⟨["gcg-documents"], false⟩, ⟨["gcg-documents", "2024"], false⟩,
      ⟨["gcg-documents", "2024", "Alpha"], false⟩,
      ⟨["gcg-documents", "2024", "Alpha", "5"], false⟩,
      ⟨["gcg-documents", "2024", "Alpha", "5", "doc.pdf"], true⟩],
    [⟨"fid", 2024, 5, "gcg-documents/2024/Alpha/5/doc.pdf", "Alpha"⟩],
    [⟨"fid", "doc.pdf", 3, 2024, 5, "gcg-documents/2024/Alpha/5/doc.pdf"⟩]⟩

/-- C5 counterexample: when the authoritative metadata path update
(step 4, the SQLite file_path update) fails, the claim says the failure is
surfaced to the caller with old path, new path and failing step.  In the
code that failure is only logged: the caller-visible response is
byte-for-byte the all-success response, with no error field at all. -/
theorem reloc_db_failure_not_surfaced :
    (updateChecklistTransfer stC5 5 "Alpha" "Beta" 2024 2024 ⟨false, false, true⟩).2
        = (updateChecklistTransfer stC5 5 "Alpha" "Beta" 2024 2024
            ⟨false, false, false⟩).2 ∧
      (updateChecklistTransfer stC5 5 "Alpha" "Beta" 2024 2024
          ⟨false, false, true⟩).2 = ⟨true, true, []⟩ := by
  constructor <;> decide

/-- C5 amended: a failure of the physical move (step 3) is surfaced to the
caller in the response's transfer_errors list (as an error-message string,
while the top-level success flag stays true), whereas failures of the
authoritative SQLite file_path update (step 4) and of the best-effort
xlsx tracking update (step 5) are only logged: the caller-visible response
is identical to the response of a run in which those steps succeed. -/
theorem reloc_error_surfacing (st : RelocState) (checklistId : Nat)
    (oldPic newPic : String) (oldTahun newTahun : Nat) :
    (∀ t d : Bool,
      oldPic ≠ newPic → oldPic ≠ "" → newPic ≠ "" →
      fsExists st.fs (relocOldDir checklistId oldPic oldTahun) = true →
      (updateChecklistTransfer st checklistId oldPic newPic oldTahun newTahun
          ⟨true, t, d⟩).2.transferErrors ≠ [] ∧
        (updateChecklistTransfer st checklistId oldPic newPic oldTahun newTahun
          ⟨true, t, d⟩).2.success = true) ∧
    (∀ m t d : Bool,
      (updateChecklistTransfer st checklistId oldPic newPic oldTahun newTahun
          ⟨m, t, d⟩).2 =
        (updateChecklistTransfer st checklistId oldPic newPic oldTahun newTahun
          ⟨m, false, false⟩).2) := by
  constructor
  · intro t d h1 h2 h3 h4
    rw [updateChecklistTransfer, if_pos ⟨h1, h2, h3⟩]
    simp only [if_pos h4]
    exact ⟨by simp, rfl⟩
  · intro m t d
    rw [updateChecklistTransfer, updateChecklistTransfer]
    by_cases hp : oldPic ≠ newPic ∧ oldPic ≠ "" ∧ newPic ≠ ""
    · rw [if_pos hp, if_pos hp]
      by_cases he : fsExists st.fs (relocOldDir checklistId oldPic oldTahun) = true
      · simp only [if_pos he]
        cases m
        · cases hmv : shutilMove
            (mkdirParents st.fs (relocNewDir checklistId newPic newTahun).dropLast)
            (relocOldDir checklistId oldPic oldTahun)
            (relocNewDir checklistId newPic newTahun) <;> simp [hmv]
        · simp
      · simp only [if_neg he]
    · rw [if_neg hp, if_neg hp]

/-- C5 witness: at the concrete stC5 state, an injected move failure is
surfaced in transfer_errors while the success flag stays true, and a
tracking-update failure leaves the response unchanged. -/
theorem reloc_error_surfacing_witness :
    ((updateChecklistTransfer stC5 5 "Alpha" "Beta" 2024 2024
        ⟨true, false, false⟩).2.transferErrors ≠ [] ∧
      (updateChecklistTransfer stC5 5 "Alpha" "Beta" 2024 2024
        ⟨true, false, false⟩).2.success = true) ∧
    (updateChecklistTransfer stC5 5 "Alpha" "Beta" 2024 2024 ⟨false, true, false⟩).2
      = (updateChecklistTransfer stC5 5 "Alpha" "Beta" 2024 2024
          ⟨false, false, false⟩).2 :=
  ⟨(reloc_error_surfacing stC5 5 "Alpha" "Beta" 2024 2024).1 false false
      (by decide) (by decide) (by decide) (by decide),
    (reloc_error_surfacing stC5 5 "Alpha" "Beta" 2024 2024).2 false true false⟩

/-! ## Claim C9: agreement of the three path-segment computations -/

theorem slashToSpace_replSpace (l : List Char) (h : slashToSpace l = l) :
    slashToSpace (replSpace l) = replSpace l := by
  induction l with
  | nil => rfl
  | cons c cs ih =>
    simp only [slashToSpace, replSpace, List.map_cons, List.cons.injEq] at h ⊢
    refine ⟨?_, ih h.2⟩
    have hc : c ≠ '/' := by
      intro hc
      rw [if_pos hc] at h
      exact absurd (hc ▸ h.1) (by decide)
    by_cases hsp : c = ' '
    · rw [if_pos hsp, if_neg (by decide : ¬ ('_' : Char) = '/')]
    · rw [if_neg hsp, if_neg hc]

/-- C9 counterexample: on the unit name "A  B" (two consecutive spaces)
upload_gcg_file computes the segment "A_B" (split collapses the
whitespace run) while update_checklist and refresh_tracking_tables
compute "A__B" (each space becomes its own underscore), so the upload and
relocation paths resolve the same unit to different directories. -/
theorem picSegment_upload_differs :
    uploadPicSegment "A  B" ≠ relocPicSegment "A  B" ∧
      uploadPicSegment "A  B" = "A_B" ∧ relocPicSegment "A  B" = "A__B" := by
  refine ⟨by decide, by decide, by decide⟩

/-- C9 amended: update_checklist and refresh_tracking_tables compute the
same segment for every unit name; upload_gcg_file agrees with them for
every non-empty name without a slash whose whitespace-collapsed underscore
join equals its space-to-underscore replacement and whose replacement
contains no residual whitespace (in particular every name whose
whitespace consists of single interior ASCII spaces); names with
consecutive spaces are resolved differently, as the counterexample
shows. -/
theorem picSegment_agreement :
    (∀ u : String, relocPicSegment u = refreshPicSegment u) ∧
    (∀ u : String, u ≠ "" →
      slashToSpace u.data = u.data →
      joinUnderscore (pySplit u.data) = replSpace u.data →
      pySplit (replSpace u.data) = [replSpace u.data] →
      uploadPicSegment u = relocPicSegment u) := by
  constructor
  · intro u
    rfl
  · intro u hne h1 h2 h3
    rw [uploadPicSegment, if_pos hne]
    show secureFilename u = secureFilename (replaceSpaceUnderscore u)
    have hdata : secureFilenameL u.data = secureFilenameL (replSpace u.data) := by
      rw [secureFilenameL, secureFilenameL, h1, h2,
        slashToSpace_replSpace u.data h1, h3]
      rfl
    show (⟨secureFilenameL u.data⟩ : String) = ⟨secureFilenameL (replaceSpaceUnderscore u).data⟩
    exact congrArg String.mk hdata

/-- C9 witness: on the single-space name "Alpha Beta" all three call
sites agree. -/
theorem picSegment_agreement_witness :
    relocPicSegment "Alpha Beta" = refreshPicSegment "Alpha Beta" ∧
      uploadPicSegment "Alpha Beta" = relocPicSegment "Alpha Beta" :=
  ⟨picSegment_agreement.1 "Alpha Beta",
    picSegment_agreement.2 "Alpha Beta" (by decide) (by decide) (by decide) (by decide)⟩

/-! ## Reconciler: refresh_tracking_tables (app.py:5738-5930) and
cleanup_orphaned_data (app.py:1426-1486) -/

/-- One row of config/aoi-documents.csv (the columns the scan reads). -/
structure AoiRec where
  tahun : Nat
  subdirektorat : String
  aoiRecommendationId : Nat
deriving DecidableEq, Repr

/-- Directory checked for a GCG tracking record (app.py:5788-5789). -/
def gcgDirPath (r : FileRec) : List String :=
  ["gcg-documents", toString r.year, refreshPicSegment r.subdirektorat,
    toString r.checklistId]

/-- Directory checked for an AOI tracking record (app.py:5866-5867). -/
def aoiDirPath (r : AoiRec) : List String :=
  ["aoi-documents", toString r.tahun, refreshPicSegment r.subdirektorat,
    toString r.aoiRecommendationId]

/-- Python name.startswith("."): the first character is a dot. -/
def startsWithDot (s : String) : Bool :=
  match s.data with
  | [] => false
  | c :: _ => c = '.'

/-- The has_real_files check of app.py:5793-5800: the directory exists and
some file directly inside it is neither the .emptyFolderPlaceholder nor
dot-prefixed. -/
def hasRealFiles (fs : Fs) (p : List String) : Bool :=
  fsIsDir fs p && fs.any (fun n =>
    n.isFile && decide (n.path.length = p.length + 1) && p.isPrefixOf n.path
      && !(decide (n.path.getLastD "" = ".emptyFolderPlaceholder"))
      && !startsWithDot (n.path.getLastD ""))

/-- The GCG half of refresh_tracking_tables (app.py:5757-5832): for the
given year, records with a falsy PIC or checklist id are skipped
(silently dropped from the rebuild, not counted), records whose directory
has real files are kept, the others counted as cleaned; the table is
rewritten as other-years ++ survivors only when the row count changed.
Returns the resulting table and the gcg_cleaned count. -/
def refreshGcg (fs : Fs) (table : List FileRec) (year : Nat) : List FileRec × Nat :=
  if table.isEmpty then (table, 0)
  else
    let yearFiles := table.filter (fun r => decide (r.year = year))
    let others := table.filter (fun r => !(decide (r.year = year)))
    if yearFiles.isEmpty then (table, 0)
    else
      let processed := yearFiles.filter
        (fun r => !(decide (r.subdirektorat = "") || decide (r.checklistId = 0)))
      let valid := processed.filter (fun r => hasRealFiles fs (gcgDirPath r))
      let cleaned := (processed.filter (fun r => !hasRealFiles fs (gcgDirPath r))).length
      let updated := others ++ valid
      if updated.length ≠ table.length then (updated, cleaned) else (table, cleaned)

/-- The AOI half of refresh_tracking_tables (app.py:5834-5911), identical
scan over config/aoi-documents.csv. -/
def refreshAoi (fs : Fs) (table : List AoiRec) (year : Nat) : List AoiRec × Nat :=
  if table.isEmpty then (table, 0)
  else
    let yearDocs := table.filter (fun r => decide (r.tahun = year))
    let others := table.filter (fun r => !(decide (r.tahun = year)))
    if yearDocs.isEmpty then (table, 0)
    else
      let processed := yearDocs.filter
        (fun r => !(decide (r.subdirektorat = "") || decide (r.aoiRecommendationId = 0)))
      let valid := processed.filter (fun r => hasRealFiles fs (aoiDirPath r))
      let cleaned := (processed.filter (fun r => !hasRealFiles fs (aoiDirPath r))).length
      let updated := others ++ valid
      if updated.length ≠ table.length then (updated, cleaned) else (table, cleaned)

/-- One entry of web-output/assessments.json. -/
structure Assessment where
  year : Nat
  payload : String
deriving DecidableEq, Repr

/-- cleanup_orphaned_data (app.py:1426-1486): keep exactly the
assessments whose year occurs in output.xlsx, count the removed ones. -/
def cleanupOrphanedData (outputTable : List XRow) (assessments : List Assessment) :
    List Assessment × Nat :=
  let xlsxYears := outputTable.map (fun r => r.tahun)
  (assessments.filter (fun a => xlsxYears.contains a.year),
    (assessments.filter (fun a => !xlsxYears.contains a.year)).length)

/-- The whole store state the two reconciliation endpoints touch. -/
structure ReconState where
  fs : Fs
  gcgTable : List FileRec
  aoiTable : List AoiRec
  outputTable : List XRow
  assessments : List Assessment
deriving DecidableEq, Repr

/-- Combined repair report of one reconciliation pass. -/
structure ReconReport where
  gcgCleaned : Nat
  aoiCleaned : Nat
  orphanedCount : Nat
deriving DecidableEq, Repr

/-- One reconciliation pass: refresh_tracking_tables for the year (which
rejects a falsy year with an error response) followed by
cleanup_orphaned_data. -/
def reconcile (s : ReconState) (year : Nat) :
    Except String (ReconState × ReconReport) :=
  if year = 0 then Except.error "Year is required"
  else
    Except.ok
      ({ s with
          gcgTable := (refreshGcg s.fs s.gcgTable year).1,
          aoiTable := (refreshAoi s.fs s.aoiTable year).1,
          assessments := (cleanupOrphanedData s.outputTable s.assessments).1 },
        ⟨(refreshGcg s.fs s.gcgTable year).2, (refreshAoi s.fs s.aoiTable year).2,
          (cleanupOrphanedData s.outputTable s.assessments).2⟩)

/-- Consistency of tracking tables and physical storage for a year: every
tracking record of that year has a non-empty PIC and id and a directory
with real files, and every assessment's year occurs in output.xlsx. -/
def ReconConsistent (s : ReconState) (year : Nat) : Prop :=
  (∀ r ∈ s.gcgTable, r.year = year →
      r.subdirektorat ≠ "" ∧ r.checklistId ≠ 0 ∧ hasRealFiles s.fs (gcgDirPath r) = true) ∧
  (∀ r ∈ s.aoiTable, r.tahun = year →
      r.subdirektorat ≠ "" ∧ r.aoiRecommendationId ≠ 0 ∧
        hasRealFiles s.fs (aoiDirPath r) = true) ∧
  (∀ a ∈ s.assessments, (s.outputTable.map (fun r => r.tahun)).contains a.year = true)

instance (s : ReconState) (year : Nat) : Decidable (ReconConsistent s year) :=
  inferInstanceAs (Decidable (_ ∧ _ ∧ _))

theorem refreshGcg_noop (fs : Fs) (table : List FileRec) (year : Nat)
    (h : ∀ r ∈ table, r.year = year →
      r.subdirektorat ≠ "" ∧ r.checklistId ≠ 0 ∧ hasRealFiles fs (gcgDirPath r) = true) :
    refreshGcg fs table year = (table, 0) := by
  rw [refreshGcg]
  by_cases h0 : table.isEmpty = true
  · rw [if_pos h0]
  · rw [if_neg h0]
    simp only
    by_cases h1 : (table.filter (fun r => decide (r.year = year))).isEmpty = true
    · rw [if_pos h1]
    · rw [if_neg h1]
      have hproc : (table.filter (fun r => decide (r.year = year))).filter
          (fun r => !(decide (r.subdirektorat = "") || decide (r.checklistId = 0)))
          = table.filter (fun r => decide (r.year = year)) := by
        refine List.filter_eq_self.mpr (fun r hr => ?_)
        obtain ⟨hmem, hy⟩ := List.mem_filter.mp hr
        simp only [decide_eq_true_eq] at hy
        obtain ⟨hs, hcid, _⟩ := h r hmem hy
        simp [hs, hcid]
      have hvalid : (table.filter (fun r => decide (r.year = year))).filter
          (fun r => hasRealFiles fs (gcgDirPath r))
          = table.filter (fun r => decide (r.year = year)) := by
        refine List.filter_eq_self.mpr (fun r hr => ?_)
        obtain ⟨hmem, hy⟩ := List.mem_filter.mp hr
        simp only [decide_eq_true_eq] at hy
        exact (h r hmem hy).2.2
      have hclean : (table.filter (fun r => decide (r.year = year))).filter
          (fun r => !hasRealFiles fs (gcgDirPath r)) = [] := by
        refine List.filter_eq_nil_iff.mpr (fun r hr hb => ?_)
        obtain ⟨hmem, hy⟩ := List.mem_filter.mp hr
        simp only [decide_eq_true_eq] at hy
        rw [(h r hmem hy).2.2] at hb
        simp at hb
      rw [hproc, hvalid, hclean]
      have hlen : (table.filter (fun r => !(decide (r.year = year)))
          ++ table.filter (fun r => decide (r.year = year))).length = table.length := by
        rw [List.length_append]
        have := List.length_eq_length_filter_add (l := table)
          (fun r => decide (r.year = year))
        omega
      rw [if_neg (by omega : ¬ _ ≠ _)]
      rfl

theorem refreshAoi_noop (fs : Fs) (table : List AoiRec) (year : Nat)
    (h : ∀ r ∈ table, r.tahun = year →
      r.subdirektorat ≠ "" ∧ r.aoiRecommendationId ≠ 0 ∧
        hasRealFiles fs (aoiDirPath r) = true) :
    refreshAoi fs table year = (table, 0) := by
  rw [refreshAoi]
  by_cases h0 : table.isEmpty = true
  · rw [if_pos h0]
  · rw [if_neg h0]
    simp only
    by_cases h1 : (table.filter (fun r => decide (r.tahun = year))).isEmpty = true
    · rw [if_pos h1]
    · rw [if_neg h1]
      have hproc : (table.filter (fun r => decide (r.tahun = year))).filter
          (fun r => !(decide (r.subdirektorat = "") || decide (r.aoiRecommendationId = 0)))
          = table.filter (fun r => decide (r.tahun = year)) := by
        refine List.filter_eq_self.mpr (fun r hr => ?_)
        obtain ⟨hmem, hy⟩ := List.mem_filter.mp hr
        simp only [decide_eq_true_eq] at hy
        obtain ⟨hs, hcid, _⟩ := h r hmem hy
        simp [hs, hcid]
      have hvalid : (table.filter (fun r => decide (r.tahun = year))).filter
          (fun r => hasRealFiles fs (aoiDirPath r))
          = table.filter (fun r => decide (r.tahun = year)) := by
        refine List.filter_eq_self.mpr (fun r hr => ?_)
        obtain ⟨hmem, hy⟩ := List.mem_filter.mp hr
        simp only [decide_eq_true_eq] at hy
        exact (h r hmem hy).2.2
      have hclean : (table.filter (fun r => decide (r.tahun = year))).filter
          (fun r => !hasRealFiles fs (aoiDirPath r)) = [] := by
        refine List.filter_eq_nil_iff.mpr (fun r hr hb => ?_)
        obtain ⟨hmem, hy⟩ := List.mem_filter.mp hr
        simp only [decide_eq_true_eq] at hy
        rw [(h r hmem hy).2.2] at hb
        simp at hb
      rw [hproc, hvalid, hclean]
      have hlen : (table.filter (fun r => !(decide (r.tahun = year)))
          ++ table.filter (fun r => decide (r.tahun = year))).length = table.length := by
        rw [List.length_append]
        have := List.length_eq_length_filter_add (l := table)
          (fun r => decide (r.tahun = year))
        omega
      rw [if_neg (by omega : ¬ _ ≠ _)]
      rfl

theorem cleanupOrphanedData_noop (outputTable : List XRow)
    (assessments : List Assessment)
    (h : ∀ a ∈ assessments, (outputTable.map (fun r => r.tahun)).contains a.year = true) :
    cleanupOrphanedData outputTable assessments = (assessments, 0) := by
  rw [cleanupOrphanedData]
  have h1 : assessments.filter
      (fun a => (outputTable.map (fun r => r.tahun)).contains a.year) = assessments :=
    List.filter_eq_self.mpr h
  have h2 : assessments.filter
      (fun a => !(outputTable.map (fun r => r.tahun)).contains a.year) = [] := by
    refine List.filter_eq_nil_iff.mpr (fun a ha hb => ?_)
    rw [h a ha] at hb
    simp at hb
  rw [h1, h2]
  rfl

/-- C8: on an already-consistent state one reconciliation pass leaves every
store unchanged, and a second pass (on the unchanged state) again leaves
it unchanged and reports all-zero repair counts. -/
theorem reconcile_idempotent_on_consistent (s : ReconState) (year : Nat)
    (hy : year ≠ 0) (hc : ReconConsistent s year) :
    ∃ s1 r1, reconcile s year = Except.ok (s1, r1) ∧ s1 = s ∧
      reconcile s1 year = Except.ok (s1, ⟨0, 0, 0⟩) := by
  obtain ⟨hg, ha, hcl⟩ := hc
  have hmain : reconcile s year = Except.ok (s, ⟨0, 0, 0⟩) := by
    rw [reconcile, if_neg hy, refreshGcg_noop s.fs s.gcgTable year hg,
      refreshAoi_noop s.fs s.aoiTable year ha,
      cleanupOrphanedData_noop s.outputTable s.assessments hcl]
  exact ⟨s, ⟨0, 0, 0⟩, hmain, rfl, hmain⟩

/-- Concrete consistent state for the C8 witness: one GCG record, one AOI
record and one assessment, each backed by real files / a matching
output.xlsx year. -/
def sW8 : ReconState :=
  ⟨[⟨["gcg-documents"], false⟩, ⟨["gcg-documents", "2024"], false⟩,
      ⟨["gcg-documents", "2024", "Alpha"], false⟩,
      ⟨["gcg-documents", "2024", "Alpha", "5"], false⟩,
      ⟨["gcg-documents", "2024", "Alpha", "5", "doc.pdf"], true⟩,
      ⟨["aoi-documents"], false⟩, ⟨["aoi-documents", "2024"], false⟩,
      ⟨["aoi-documents", "2024", "Alpha"], false⟩,
      ⟨["aoi-documents", "2024", "Alpha", "3"], false⟩,
      ⟨["aoi-documents", "2024", "Alpha", "3", "rec.pdf"], true⟩],
    [⟨"fid", 2024, 5, "gcg-documents/2024/Alpha/5/doc.pdf", "Alpha"⟩],
    [⟨2024, "Alpha", 3⟩],
    [⟨"1", "indicator", "I", "1", "d", "", "", "", "", 2024, "aud", "Internal",
        "2025-01-01"⟩],
    [⟨2024, "asm"⟩]⟩

/-- C8 witness: the theorem applied to the concrete consistent state. -/
theorem reconcile_idempotent_on_consistent_witness :
    ∃ s1 r1, reconcile sW8 2024 = Except.ok (s1, r1) ∧ s1 = sW8 ∧
      reconcile s1 2024 = Except.ok (s1, ⟨0, 0, 0⟩) :=
  reconcile_idempotent_on_consistent sW8 2024 (by decide) (by decide)
